import Mathlib

/-!
Verification of the interactive-feedback-mcp repository (src/feedback_ui.py and
src/i18n.py) against its natural-language specification.  The Python code is
shallowly embedded: pure fragments become Lean functions, the Qt dialog's
mutable attributes become an explicit state record, subprocess and file-system
effects become event traces, and Python exceptions become `Except` values.
Qt-only concerns (widget painting, signal plumbing, pixmap compression) do not
influence any verified property and are represented by oracle inputs where the
source consumes their results.
-/

/-! ### Internationalization module (src/i18n.py) -/

/-- A piece of a Python format string: either literal text or a `\x7bname\x7d`
replacement field.  Models the format strings stored in the i18n database. -/
inductive FmtPiece where
  | lit (s : String)
  | field (name : String)
deriving DecidableEq

/-- A Python format string, as the list of its pieces. -/
abbrev FmtTemplate := List FmtPiece

/-- The source text of a format string, i.e. what Python returns when the
string is not formatted (the `if kwargs:` test is false in `get_text`). -/
def templateSource : FmtTemplate → String
  | [] => ""
  | FmtPiece.lit s :: rest => s ++ templateSource rest
  | FmtPiece.field n :: rest => "\x7b" ++ n ++ "\x7d" ++ templateSource rest

/-- Python `text.format(**kwargs)` on a template of named fields: a missing
keyword raises `KeyError`, modelled as `Except.error ()`. -/
def pyFormat (t : FmtTemplate) (kwargs : List (String × String)) : Except Unit String :=
  match t with
  | [] => Except.ok ""
  | FmtPiece.lit s :: rest => (pyFormat rest kwargs).map (fun r => s ++ r)
  | FmtPiece.field n :: rest =>
    match kwargs.lookup n with
    | none => Except.error ()
    | some v => (pyFormat rest kwargs).map (fun r => v ++ r)

/-- The i18n text database `self.texts` loaded from i18n.json:
category to language to key to format string, as nested association lists. -/
abbrev TextsDB := List (String × List (String × List (String × FmtTemplate)))

/-- The nested dictionary lookup `self.texts[category][lang][key]`; `none`
models the `KeyError` raised when any of the three lookups misses. -/
def lookupText (texts : TextsDB) (cat lang key : String) : Option FmtTemplate :=
  match texts.lookup cat with
  | none => none
  | some byLang =>
    match byLang.lookup lang with
    | none => none
    | some byKey => byKey.lookup key

/-- The body of one `try:` block of `I18NManager.get_text` (i18n.py lines
112-116 and 119-123): look the text up in the given language and format it
when keyword arguments were passed.  `Except.error ()` is the `KeyError`
raised either by the dictionary lookup or by `str.format`. -/
def tryGetText (texts : TextsDB) (lang cat key : String)
    (kwargs : List (String × String)) : Except Unit String :=
  match lookupText texts cat lang key with
  | none => Except.error ()
  | some t =>
    if kwargs.isEmpty then Except.ok (templateSource t)
    else pyFormat t kwargs

/-- Python `try: body except KeyError: handler` over string-returning code. -/
def pyCatchKeyError (body : Except Unit String)
    (handler : Unit → Except Unit String) : Except Unit String :=
  match body with
  | Except.ok v => Except.ok v
  | Except.error e => handler e

/-- `I18NManager.get_text` (i18n.py lines 99-126): try the current language,
fall back to English on `KeyError`, and finally return the placeholder
`[category.key]`.  The result is `Except` so that an uncaught `KeyError`
would be visible as `Except.error`. -/
def get_text (texts : TextsDB) (current_language cat key : String)
    (kwargs : List (String × String)) : Except Unit String :=
  pyCatchKeyError (tryGetText texts current_language cat key kwargs) (fun _ =>
    pyCatchKeyError (tryGetText texts "en" cat key kwargs) (fun _ =>
      Except.ok ("[" ++ cat ++ "." ++ key ++ "]")))

/-- The fallback chain in the words of the specification: the current-language
text when that lookup succeeds, otherwise the English text, otherwise the
placeholder string `[category.key]`. -/
def get_text_fallback_spec (texts : TextsDB) (current_language cat key : String)
    (kwargs : List (String × String)) : String :=
  match tryGetText texts current_language cat key kwargs with
  | Except.ok t => t
  | Except.error _ =>
    match tryGetText texts "en" cat key kwargs with
    | Except.ok t => t
    | Except.error _ => "[" ++ cat ++ "." ++ key ++ "]"

/-- The `I18NManager` state: its `current_language` attribute and the
`QSettings("InteractiveFeedbackMCP", "I18NManager")` store, modelled as an
association list of key-value pairs (most recent write first). -/
structure I18NManager where
  current_language : String
  settings : List (String × String)
  texts : TextsDB

/-- `I18NManager.set_language` (i18n.py lines 143-154): update the current
language and persist it, but only for the codes "zh" and "en". -/
def set_language (m : I18NManager) (language : String) : I18NManager :=
  if language = "zh" ∨ language = "en" then
    { m with current_language := language,
             settings := ("language", language) :: m.settings }
  else m

/-- `I18NManager.get_current_language` (i18n.py lines 156-164). -/
def get_current_language (m : I18NManager) : String :=
  m.current_language

/-- `I18NManager.toggle_language` (i18n.py lines 166-176): compute the other
language code, set it, and return it together with the updated manager. -/
def toggle_language (m : I18NManager) : String × I18NManager :=
  let new_lang := if m.current_language = "zh" then "en" else "zh"
  (new_lang, set_language m new_lang)

/-! ### Process-tree termination (feedback_ui.py, kill_tree) -/

/-- Status of a pid in the operating-system process table: running, exited but
not yet reaped (zombie), or fully gone (exited and reaped, or never existed). -/
inductive ProcStatus where
  | running
  | zombie
  | gone
deriving DecidableEq, BEq

/-- A snapshot of the process table: each pid's status and the list of live
descendants that `psutil.Process.children(recursive=True)` would return. -/
structure ProcTable where
  status : Nat → ProcStatus
  children : Nat → List Nat

/-- The only psutil failure relevant here: the pid does not exist. -/
inductive PsutilErr where
  | noSuchProcess
deriving DecidableEq

/-- `psutil.Process(pid)` (feedback_ui.py line 175): raises `NoSuchProcess`
when the pid is not in the process table; a zombie still has a table entry. -/
def psutil_Process (t : ProcTable) (pid : Nat) : Except PsutilErr Nat :=
  if t.status pid = ProcStatus.gone then Except.error PsutilErr.noSuchProcess
  else Except.ok pid

/-- `kill_tree` (feedback_ui.py lines 173-194).  The `psutil.Process`
construction is outside any `try`, so its `NoSuchProcess` propagates.  Each
child `kill` is wrapped in `try/except psutil.Error` and only successfully
signalled children enter `killed`; signalling a pid that is gone raises and is
swallowed.  The parent `kill` is likewise wrapped and the parent is appended
unconditionally.  The final terminate loop catches every `psutil.Error` and
does not change the outcome, so it is not reflected in the returned value. -/
def kill_tree (t : ProcTable) (pid : Nat) : Except PsutilErr (List Nat) := do
  let parent ← psutil_Process t pid
  let killedChildren :=
    (t.children parent).filter (fun c => t.status c != ProcStatus.gone)
  let killed := killedChildren ++ [parent]
  pure killed

/-! ### Feedback dialog data model (src/feedback_ui.py) -/

/-- A Python/JSON value, enough to represent the feedback result dictionary
and its nested image and text-file dictionaries. -/
inductive PyValue where
  | str (s : String)
  | int (n : Int)
  | list (l : List PyValue)
  | dict (d : List (String × PyValue))

/-- A Python dictionary with string keys, as an association list in insertion
order — the shape produced by a `TypedDict` constructor call, which performs
no runtime validation of the keyword names used. -/
abbrev PyDict := List (String × PyValue)

/-- The keys of a Python dictionary, in insertion order. -/
def resultKeys (r : PyDict) : List String :=
  r.map Prod.fst

/-- Dictionary lookup `r[k]`. -/
def resultField (r : PyDict) (k : String) : Option PyValue :=
  r.lookup k

/-- The field names declared by the `FeedbackResult` TypedDict
(feedback_ui.py lines 29-33). -/
def feedbackResult_declared_fields : List String :=
  ["command_logs", "interactive_feedback", "images", "text_files"]

/-- One attached image as stored in `FeedbackTextEdit.images`:
a dict `with keys "filename"` and `"data"` (a data-URL string). -/
structure ImageEntry where
  filename : String
  data : String
deriving DecidableEq

/-- One attached text file as stored in `FeedbackTextEdit.text_files`
(feedback_ui.py lines 826-832). -/
structure TextFileEntry where
  filename : String
  content : String
  path : String
  size : Nat
  encoding : String
deriving DecidableEq

/-- The attachment state of the `FeedbackTextEdit` widget: its `images` and
`text_files` lists (feedback_ui.py lines 438-439). -/
structure AttachState where
  images : List ImageEntry
  text_files : List TextFileEntry
deriving DecidableEq

/-- The dictionary form of an image entry, as read by `get_images`. -/
def imageToDict (e : ImageEntry) : PyValue :=
  PyValue.dict [("filename", PyValue.str e.filename), ("data", PyValue.str e.data)]

/-- The dictionary form of a text-file entry, as read by `get_text_files`. -/
def textFileToDict (e : TextFileEntry) : PyValue :=
  PyValue.dict [("filename", PyValue.str e.filename),
                ("content", PyValue.str e.content),
                ("path", PyValue.str e.path),
                ("size", PyValue.int (Int.ofNat e.size)),
                ("encoding", PyValue.str e.encoding)]

/-- Window geometry as captured by `saveGeometry`/`restoreGeometry`. -/
structure WindowGeom where
  x : Int
  y : Int
  width : Int
  height : Int
deriving DecidableEq

/-- The main window's restorable visual state: its geometry and the opaque
dock/toolbar state captured by `saveState`/`restoreState` (a token). -/
structure Window where
  geometry : WindowGeom
  dockState : Nat
deriving DecidableEq

/-- The primary screen's dimensions, `QApplication.primaryScreen().geometry()`. -/
structure Screen where
  width : Int
  height : Int

/-- A value stored in `QSettings`: a serialized geometry, a serialized window
state, a string, or a boolean. -/
inductive QVariant where
  | geom (g : WindowGeom)
  | wstate (n : Nat)
  | str (s : String)
  | bool (b : Bool)
deriving DecidableEq

/-- The `QSettings("InteractiveFeedbackMCP", "InteractiveFeedbackMCP")` store:
entries keyed by (group, key), most recent write first. -/
abbrev Settings := List ((String × String) × QVariant)

/-- `self.settings.value(key)` inside `beginGroup(group)`. -/
def settingsValue (st : Settings) (group key : String) : Option QVariant :=
  match st with
  | [] => none
  | ((g, k), v) :: rest =>
    if g = group ∧ k = key then some v else settingsValue rest group key

/-- `self.settings.setValue(key, v)` inside `beginGroup(group)`; the new entry
shadows any previous one for `settingsValue`. -/
def settingsSet (st : Settings) (group key : String) (v : QVariant) : Settings :=
  ((group, key), v) :: st

/-- `self.saveGeometry()` — serializes the current window geometry. -/
def saveGeometry (w : Window) : QVariant :=
  QVariant.geom w.geometry

/-- `self.saveState()` — serializes the current dock/toolbar state. -/
def saveState (w : Window) : QVariant :=
  QVariant.wstate w.dockState

/-- `FeedbackUI.DEFAULT_WINDOW_SIZES["command_hidden"]`
(feedback_ui.py lines 924-927). -/
def DEFAULT_WINDOW_SIZES_command_hidden : Int × Int :=
  (500, 600)

/-- The geometry/state restoration block of `FeedbackUI.__init__`
(feedback_ui.py lines 996-1012): restore a stored geometry when present,
otherwise resize to the 500x600 default and centre on the primary screen
(Python `//` is floor division, `Int.fdiv`); then restore a stored window
state when present. -/
def initWindowLayout (st : Settings) (screen : Screen) (w0 : Window) : Window :=
  let w1 :=
    match settingsValue st "MainWindow_General" "geometry" with
    | some (QVariant.geom g) => { w0 with geometry := g }
    | _ =>
      let dw := DEFAULT_WINDOW_SIZES_command_hidden.1
      let dh := DEFAULT_WINDOW_SIZES_command_hidden.2
      { w0 with geometry :=
          { x := Int.fdiv (screen.width - dw) 2,
            y := Int.fdiv (screen.height - dh) 2,
            width := dw, height := dh } }
  match settingsValue st "MainWindow_General" "windowState" with
  | some (QVariant.wstate n) => { w1 with dockState := n }
  | _ => w1

/-- The user-visible strings produced through the i18n manager by the dialog.
Their concrete content lives in the i18n.json data file; the dialog only ever
uses them as opaque strings, so they are parameters of the model. -/
structure UIMessages where
  btnRun : String
  btnStop : String
  enterCommand : String
  commandRunning : String → String
  commandError : String → String

/-- The mutable state of a `FeedbackUI` instance: the tracked subprocess pid,
the log buffer and the displayed log lines, the stored feedback result, the
feedback text edit (plain text plus attachment lists), the command entry, the
run button's label, the settings store, the window, and the project-specific
settings group name. -/
structure UIState where
  process : Option Nat
  log_buffer : List String
  log_text : List String
  feedback_result : Option PyDict
  feedback_text : String
  feedback_widget : AttachState
  command_entry : String
  run_button : String
  settings : Settings
  window : Window
  command_group_visible : Bool
  project_group : String

/-- Externally visible process actions performed by a dialog transition. -/
inductive Event where
  | killTree (pid : Nat)
  | spawn (pid : Nat)
deriving DecidableEq

/-- Python `text.rstrip()` restricted to ASCII whitespace. -/
def rstrip (s : String) : String :=
  String.mk (s.data.reverse.dropWhile Char.isWhitespace).reverse

/-- Python `text.strip()` restricted to ASCII whitespace. -/
def pyStrip (s : String) : String :=
  s.trim

/-- `FeedbackUI._append_log` (feedback_ui.py lines 1771-1776): append the raw
line to `log_buffer` and its right-stripped form to the visible log widget. -/
def append_log (s : UIState) (text : String) : UIState :=
  { s with log_buffer := s.log_buffer ++ [text],
           log_text := s.log_text ++ [rstrip text] }

/-- Delivery of a sequence of lines emitted on the `append_log` signal by the
reader threads (feedback_ui.py lines 1821-1835): the Qt connection invokes
`_append_log` once per emitted line, in emission order. -/
def process_lines (s : UIState) (lines : List String) : UIState :=
  lines.foldl append_log s

/-- `FeedbackUI.clear_logs` (feedback_ui.py lines 1861-1863). -/
def clear_logs (s : UIState) : UIState :=
  { s with log_buffer := [], log_text := [] }

/-- `FeedbackUI._run_command` (feedback_ui.py lines 1788-1844).  When a
process is already tracked, kill its tree, clear the tracking, reset the run
button, and return.  Otherwise reset the log buffer, reject an empty command
with a message, and else log the command, switch the button to stop, and
spawn.  `spawnRes` is the outcome of `subprocess.Popen`: a fresh pid, or an
exception message that the `except` branch logs before resetting the button.
The tracked process is never a reaped pid (its exit is observed by
`_check_process_status` on the same thread, which immediately clears the
tracking), so the `kill_tree` call returns normally and is recorded as an
event. -/
def run_command (s : UIState) (m : UIMessages) (spawnRes : Except String Nat) :
    UIState × List Event :=
  match s.process with
  | some pid =>
    ({ s with process := none, run_button := m.btnRun }, [Event.killTree pid])
  | none =>
    let s1 := { s with log_buffer := [] }
    if s1.command_entry = "" then
      (append_log s1 m.enterCommand, [])
    else
      let s2 := append_log s1 (m.commandRunning s1.command_entry)
      let s3 := { s2 with run_button := m.btnStop }
      match spawnRes with
      | Except.ok pid => ({ s3 with process := some pid }, [Event.spawn pid])
      | Except.error e =>
        ({ append_log s3 (m.commandError e) with run_button := m.btnRun }, [])

/-- The dictionary built by the `FeedbackResult(...)` call in
`FeedbackUI._submit_feedback` (feedback_ui.py lines 1847-1852).  The call
passes the keyword `logs=`, and a TypedDict constructor is a plain dict
construction, so the first key of the produced dictionary is the literal
string "logs". -/
def current_feedback_result (s : UIState) : PyDict :=
  [("logs", PyValue.str (String.join s.log_buffer)),
   ("interactive_feedback", PyValue.str (pyStrip s.feedback_text)),
   ("images", PyValue.list (s.feedback_widget.images.map imageToDict)),
   ("text_files", PyValue.list (s.feedback_widget.text_files.map textFileToDict))]

/-- `FeedbackUI._submit_feedback` (feedback_ui.py lines 1846-1853): store the
result; the subsequent `self.close()` ends the event loop via `closeEvent`. -/
def submit_feedback (s : UIState) : UIState :=
  { s with feedback_result := some (current_feedback_result s) }

/-- `FeedbackUI.closeEvent` (feedback_ui.py lines 1873-1892): persist the
window geometry and state under the "MainWindow_General" group, persist the
command-section visibility under the project group, and kill the tracked
process tree if one remains. -/
def closeEvent (s : UIState) : UIState × List Event :=
  let st1 := settingsSet s.settings "MainWindow_General" "geometry" (saveGeometry s.window)
  let st2 := settingsSet st1 "MainWindow_General" "windowState" (saveState s.window)
  let st3 := settingsSet st2 s.project_group "commandSectionVisible"
      (QVariant.bool s.command_group_visible)
  let s1 := { s with settings := st3 }
  match s.process with
  | some pid => (s1, [Event.killTree pid])
  | none => (s1, [])

/-- The value returned by `FeedbackUI.run` (feedback_ui.py lines 1908-1911):
the stored result, or, when the window was closed without submitting, a fresh
dictionary likewise built with the keyword `logs=`. -/
def run_return (s : UIState) : PyDict :=
  match s.feedback_result with
  | some r => r
  | none =>
    [("logs", PyValue.str (String.join s.log_buffer)),
     ("interactive_feedback", PyValue.str ""),
     ("images", PyValue.list []),
     ("text_files", PyValue.list [])]

/-- The tail of `FeedbackUI.run` after `QApplication.exec` returns
(feedback_ui.py lines 1905-1911): kill the tracked process tree if one is
still tracked, then return the feedback result. -/
def run_after_exec (s : UIState) : PyDict × List Event :=
  (run_return s,
   match s.process with
   | some pid => [Event.killTree pid]
   | none => [])

/-! ### Result delivery (feedback_ui.py, feedback_ui function) -/

/-- A file-system action performed by the `feedback_ui` function. -/
inductive FsAction where
  | makedirs (dir : String)
  | writeJson (path : String) (r : PyDict)

/-- `os.path.dirname` for forward-slash paths: everything before the last
separator (the root-path corner is simplified; no claim depends on it). -/
def dirname (p : String) : String :=
  let parts := p.splitOn "/"
  if parts.length ≤ 1 then "" else String.intercalate "/" parts.dropLast

/-- The `feedback_ui` function (feedback_ui.py lines 1930-1945), starting
from the result handed back by `FeedbackUI.run`.  Python evaluates
`if output_file and result:` by truthiness: `None` and the empty string are
falsy for `output_file`, an empty dictionary is falsy for `result`.  On the
write path the parent directory (or ".") is created and the result is dumped
as JSON to the file, and `None` is returned; otherwise the result itself is
returned and no file-system action happens. -/
def feedback_ui (output_file : Option String) (result : PyDict) :
    Option PyDict × List FsAction :=
  match output_file with
  | none => (some result, [])
  | some f =>
    if f = "" then (some result, [])
    else if result.isEmpty then (some result, [])
    else
      let d := dirname f
      (none, [FsAction.makedirs (if d = "" then "." else d),
              FsAction.writeJson f result])

/-! ### Attachment handlers (feedback_ui.py, FeedbackTextEdit) -/

/-- The image format chosen by `_compress_image`. -/
inductive ImgFormat where
  | png
  | jpeg
deriving DecidableEq

/-- `image_format.lower()` for the data-URL mime suffix. -/
def fmtLower : ImgFormat → String
  | ImgFormat.png => "png"
  | ImgFormat.jpeg => "jpeg"

/-- The file extension chosen for the stored filename
(`"jpg" if image_format == "JPEG" else "png"`). -/
def fmtExt : ImgFormat → String
  | ImgFormat.jpeg => "jpg"
  | ImgFormat.png => "png"

/-- `os.path.basename` for forward-slash paths. -/
def pathBasename (p : String) : String :=
  (p.splitOn "/").getLastD ""

/-- `os.path.splitext(...)[0]`: the name without its last extension (the
leading-dot corner of Python's splitext is simplified; no claim depends
on it). -/
def stripExt (name : String) : String :=
  let parts := name.splitOn "."
  if parts.length ≤ 1 then name else String.intercalate "." parts.dropLast

/-- `FeedbackTextEdit._handle_image_paste` (feedback_ui.py lines 649-709),
restricted to the attachment state.  Pixmap serialization, compression and
base64 encoding are performed by Qt and are oracle inputs (`base64_data`,
`fmt`); the placeholder insertion and notifications are widget-only effects.
The second component is the error message delivered to
`FeedbackUI._show_error_message`, `none` when the image was attached. -/
def handle_image_paste (s : AttachState) (base64_data : String) (fmt : ImgFormat) :
    AttachState × Option String :=
  if s.images.length ≥ 5 then
    (s, some "max_images_reached")
  else
    let entry : ImageEntry :=
      { filename := "clipboard_image_" ++ toString (s.images.length + 1) ++ "." ++ fmtExt fmt,
        data := "data:image/" ++ fmtLower fmt ++ ";base64," ++ base64_data }
    ({ s with images := s.images ++ [entry] }, none)

/-- `FeedbackTextEdit._handle_image_file` (feedback_ui.py lines 711-789),
restricted to the attachment state.  `file_size` is `os.path.getsize`,
`mime` is `mimetypes.guess_type`'s first component, and the compression and
base64 results are oracle inputs as above. -/
def handle_image_file (s : AttachState) (file_path : String) (file_size : Nat)
    (mime : Option String) (base64_data : String) (fmt : ImgFormat) :
    AttachState × Option String :=
  if s.images.length ≥ 5 then
    (s, some "max_images_reached")
  else if file_size > 10 * 1024 * 1024 then
    (s, some "image_too_large")
  else
    match mime with
    | none => (s, some "invalid_image_format")
    | some m =>
      if String.startsWith m "image/" then
        let entry : ImageEntry :=
          { filename := stripExt (pathBasename file_path) ++ "." ++ fmtExt fmt,
            data := "data:image/" ++ fmtLower fmt ++ ";base64," ++ base64_data }
        ({ s with images := s.images ++ [entry] }, none)
      else
        (s, some "invalid_image_format")

/-- `FeedbackTextEdit._handle_text_file` (feedback_ui.py lines 791-855),
restricted to the attachment state.  Encoding detection and file reading are
oracle inputs (`encoding`, `content`), as is the absolute path `abs_path`
computed by `os.path.abspath`. -/
def handle_text_file (s : AttachState) (file_path : String) (file_size : Nat)
    (abs_path : String) (encoding : String) (content : String) :
    AttachState × Option String :=
  if s.text_files.length ≥ 5 then
    (s, some "max_text_files_reached")
  else if file_size > 5 * 1024 * 1024 then
    (s, some "text_file_too_large")
  else
    let entry : TextFileEntry :=
      { filename := pathBasename file_path, content := content,
        path := abs_path, size := file_size, encoding := encoding }
    ({ s with text_files := s.text_files ++ [entry] }, none)

/-! ### Concrete instances used to evaluate the model -/

/-- A process table in which every pid has exited and been reaped. -/
def deadProcTable : ProcTable :=
  { status := fun _ => ProcStatus.gone, children := fun _ => [] }

/-- A process table in which pid 7 has exited but is not yet reaped (zombie)
and both of its former children, 3 and 4, have fully exited. -/
def zombieProcTable : ProcTable :=
  { status := fun p => if p = 7 then ProcStatus.zombie else ProcStatus.gone,
    children := fun p => if p = 7 then [3, 4] else [] }

/-- A concrete `I18NManager` whose current language is Chinese. -/
def sampleI18N : I18NManager :=
  { current_language := "zh", settings := [], texts := [] }

/-- A concrete window. -/
def sampleWindow : Window :=
  { geometry := { x := 10, y := 20, width := 640, height := 480 }, dockState := 3 }

/-- A concrete primary screen. -/
def sampleScreen : Screen :=
  { width := 1920, height := 1080 }

/-- A concrete dialog state as it is right after construction with no stored
settings: no tracked process, empty logs, no result, empty attachments. -/
def sampleUIState : UIState :=
  { process := none, log_buffer := [], log_text := [], feedback_result := none,
    feedback_text := "", feedback_widget := { images := [], text_files := [] },
    command_entry := "", run_button := "Run", settings := [],
    window := sampleWindow, command_group_visible := false,
    project_group := "workspace_0a1b2c3d" }

/-- Concrete user-visible strings for evaluating the model. -/
def sampleMessages : UIMessages :=
  { btnRun := "Run", btnStop := "Stop", enterCommand := "Please enter a command",
    commandRunning := fun c => "$ " ++ c ++ "\n",
    commandError := fun e => "Error: " ++ e ++ "\n" }

/-- A dialog state with a tracked subprocess. -/
def runningState : UIState :=
  { sampleUIState with process := some 5, command_entry := "make", run_button := "Stop" }

/-- A dialog state with a command entered and no tracked subprocess. -/
def idleState : UIState :=
  { sampleUIState with command_entry := "make" }

/-- A dialog state with a tracked subprocess, used on the exit paths. -/
def leakCheckState : UIState :=
  { sampleUIState with process := some 9 }

/-- A dialog state about to submit: some collected logs and a typed reply. -/
def submittedState : UIState :=
  { sampleUIState with log_buffer := ["line1\n", "line2\n"], feedback_text := " done " }

/-- A settings store holding a saved geometry and window state. -/
def storedSettings : Settings :=
  [(("MainWindow_General", "geometry"),
      QVariant.geom { x := 1, y := 2, width := 640, height := 480 }),
   (("MainWindow_General", "windowState"), QVariant.wstate 3)]

/-- The result produced by submitting from `sampleUIState`. -/
def sampleResult : PyDict :=
  current_feedback_result sampleUIState

/-- An attachment state already holding five images and five text files. -/
def fullAttach : AttachState :=
  { images :=
      [{ filename := "1.png", data := "d1" }, { filename := "2.png", data := "d2" },
       { filename := "3.png", data := "d3" }, { filename := "4.png", data := "d4" },
       { filename := "5.png", data := "d5" }],
    text_files :=
      [{ filename := "a.txt", content := "a", path := "/p/a.txt", size := 1, encoding := "utf-8" },
       { filename := "b.txt", content := "b", path := "/p/b.txt", size := 1, encoding := "utf-8" },
       { filename := "c.txt", content := "c", path := "/p/c.txt", size := 1, encoding := "utf-8" },
       { filename := "d.txt", content := "d", path := "/p/d.txt", size := 1, encoding := "utf-8" },
       { filename := "e.txt", content := "e", path := "/p/e.txt", size := 1, encoding := "utf-8" }] }

/-! ### Theorems -/

/-- C9: for every category string and key string (and keyword arguments),
`I18NManager.get_text` returns a string and never propagates a `KeyError`:
it returns the formatted current-language text when that attempt succeeds,
otherwise the formatted English text, and when that also fails the
placeholder string `[category.key]`. -/
theorem get_text_total_fallback (texts : TextsDB) (cur cat key : String)
    (kwargs : List (String × String)) :
    get_text texts cur cat key kwargs =
      Except.ok (get_text_fallback_spec texts cur cat key kwargs) := by
  unfold get_text get_text_fallback_spec pyCatchKeyError
  cases tryGetText texts cur cat key kwargs with
  | ok t => rfl
  | error e =>
    cases tryGetText texts "en" cat key kwargs with
    | ok t => rfl
    | error e2 => rfl

/-- C10: `I18NManager.toggle_language` always returns a code in
`zh`/`en` that equals `get_current_language` immediately afterwards, and
when the current language is in that set, toggling twice restores it. -/
theorem toggle_language_spec (m : I18NManager) :
    ((toggle_language m).1 = "zh" ∨ (toggle_language m).1 = "en")
  ∧ get_current_language (toggle_language m).2 = (toggle_language m).1
  ∧ ((m.current_language = "zh" ∨ m.current_language = "en") →
      get_current_language (toggle_language (toggle_language m).2).2 =
        m.current_language) := by
  by_cases h : m.current_language = "zh"
  · refine ⟨Or.inr ?_, ?_, fun _ => ?_⟩ <;>
      simp [toggle_language, set_language, get_current_language, h]
  · refine ⟨Or.inl ?_, ?_, fun hc => ?_⟩
    · simp [toggle_language, h]
    · simp [toggle_language, set_language, get_current_language, h]
    · rcases hc with hc | hc
      · exact absurd hc h
      · simp [toggle_language, set_language, get_current_language, h, hc]

/-- Witness for C10 at a concrete manager whose language is Chinese. -/
theorem toggle_language_spec_witness :
    get_current_language (toggle_language (toggle_language sampleI18N).2).2 =
      sampleI18N.current_language :=
  (toggle_language_spec sampleI18N).2.2 (Or.inl rfl)

/-- C2 counterexample: on a handle whose process has already exited and been
reaped (and all of whose children have exited), the `psutil.Process`
construction at the top of `kill_tree` raises `NoSuchProcess`, which is not
inside any `try` and therefore propagates: `kill_tree` does not return
normally. -/
theorem kill_tree_raises_on_reaped_pid :
    kill_tree deadProcTable 42 = Except.error PsutilErr.noSuchProcess := rfl

/-- C2 (amended): `kill_tree` returns normally for every subprocess handle
whose pid is still present in the process table — including a zombie that has
already exited but is unreaped — and already-dead children are ignored (they
are skipped rather than raising); only when the pid itself is gone does the
initial `psutil.Process` lookup raise. -/
theorem kill_tree_ok_when_pid_alive (t : ProcTable) (pid : Nat)
    (h : t.status pid ≠ ProcStatus.gone) :
    kill_tree t pid =
      Except.ok ((t.children pid).filter (fun c => t.status c != ProcStatus.gone)
        ++ [pid]) := by
  unfold kill_tree psutil_Process
  rw [if_neg h]
  rfl

/-- Witness for C2's amended theorem: a zombie parent whose children have all
exited is killed without an exception, the dead children being skipped. -/
theorem kill_tree_ok_when_pid_alive_witness :
    kill_tree zombieProcTable 7 = Except.ok [7] :=
  kill_tree_ok_when_pid_alive zombieProcTable 7 (by decide)

/-- C3: on both exit paths of the dialog — the window's close event and the
tail of `FeedbackUI.run` — a still-tracked subprocess has `kill_tree` invoked
on it before the path completes. -/
theorem no_process_leak (s : UIState) (pid : Nat) (h : s.process = some pid) :
    Event.killTree pid ∈ (closeEvent s).2
  ∧ Event.killTree pid ∈ (run_after_exec s).2 := by
  constructor
  · simp [closeEvent, h]
  · simp [run_after_exec, h]

/-- Witness for C3 at a concrete state tracking pid 9. -/
theorem no_process_leak_witness :
    Event.killTree 9 ∈ (closeEvent leakCheckState).2
  ∧ Event.killTree 9 ∈ (run_after_exec leakCheckState).2 :=
  no_process_leak leakCheckState 9 rfl

/-- C4: at most one subprocess is tracked at a time.  Invoking `_run_command`
with a tracked process kills that tree, clears the tracking, resets the run
button, and spawns nothing; a spawn event can only happen when no process was
tracked and the command text is non-empty; and in that case a successful
`Popen` is tracked. -/
theorem run_command_single_process (s : UIState) (m : UIMessages)
    (spawnRes : Except String Nat) :
    (∀ pid, s.process = some pid →
        (run_command s m spawnRes).1.process = none
      ∧ (run_command s m spawnRes).1.run_button = m.btnRun
      ∧ (run_command s m spawnRes).2 = [Event.killTree pid])
  ∧ (∀ q, Event.spawn q ∈ (run_command s m spawnRes).2 →
        s.process = none ∧ s.command_entry ≠ "")
  ∧ (s.process = none → s.command_entry ≠ "" →
      ∀ q, spawnRes = Except.ok q →
        (run_command s m spawnRes).1.process = some q
      ∧ Event.spawn q ∈ (run_command s m spawnRes).2) := by
  refine ⟨?_, ?_, ?_⟩
  · intro pid h
    simp [run_command, h]
  · intro q hq
    cases hp : s.process with
    | some pid => simp [run_command, hp] at hq
    | none =>
      by_cases hc : s.command_entry = ""
      · simp [run_command, hp, hc] at hq
      · exact ⟨rfl, hc⟩
  · intro hp hc q hr
    subst hr
    simp [run_command, hp, hc]

/-- Witness for C4: killing a tracked pid 5 without spawning, and spawning
pid 7 when idle with a non-empty command. -/
theorem run_command_single_process_witness :
    ((run_command runningState sampleMessages (Except.ok 6)).1.process = none
   ∧ (run_command runningState sampleMessages (Except.ok 6)).1.run_button =
       sampleMessages.btnRun
   ∧ (run_command runningState sampleMessages (Except.ok 6)).2 = [Event.killTree 5])
  ∧ ((run_command idleState sampleMessages (Except.ok 7)).1.process = some 7
   ∧ Event.spawn 7 ∈ (run_command idleState sampleMessages (Except.ok 7)).2) :=
  ⟨(run_command_single_process runningState sampleMessages (Except.ok 6)).1 5 rfl,
   (run_command_single_process idleState sampleMessages (Except.ok 7)).2.2
     rfl (by decide) 7 rfl⟩

/-- Each line delivered through the `append_log` connection is appended to
`log_buffer`, in order. -/
theorem process_lines_log_buffer (s : UIState) (lines : List String) :
    (process_lines s lines).log_buffer = s.log_buffer ++ lines := by
  induction lines generalizing s with
  | nil => simp [process_lines]
  | cons l ls ih =>
    show (process_lines (append_log s l) ls).log_buffer = _
    rw [ih]
    simp [append_log]

/-- C5: every line forwarded on the `append_log` signal is appended to
`log_buffer` by `_append_log`, and after a reset the logs of the submitted
feedback result are exactly the concatenation, in order, of the lines
appended since. -/
theorem log_stream_concat (s : UIState) (lines : List String)
    (h : s.log_buffer = []) :
    (process_lines s lines).log_buffer = s.log_buffer ++ lines
  ∧ (submit_feedback (process_lines s lines)).feedback_result =
      some (current_feedback_result (process_lines s lines))
  ∧ resultField (current_feedback_result (process_lines s lines)) "logs" =
      some (PyValue.str (String.join lines)) := by
  refine ⟨process_lines_log_buffer s lines, rfl, ?_⟩
  have hb : (process_lines s lines).log_buffer = lines := by
    rw [process_lines_log_buffer, h]
    simp
  unfold current_feedback_result resultField
  rw [hb]
  simp [List.lookup]

/-- Witness for C5 at a fresh state and two concrete output lines. -/
theorem log_stream_concat_witness :
    (process_lines sampleUIState ["out 1\n", "out 2\n"]).log_buffer =
      sampleUIState.log_buffer ++ ["out 1\n", "out 2\n"]
  ∧ (submit_feedback (process_lines sampleUIState ["out 1\n", "out 2\n"])).feedback_result =
      some (current_feedback_result (process_lines sampleUIState ["out 1\n", "out 2\n"]))
  ∧ resultField
      (current_feedback_result (process_lines sampleUIState ["out 1\n", "out 2\n"]))
      "logs" =
      some (PyValue.str (String.join ["out 1\n", "out 2\n"])) :=
  log_stream_concat sampleUIState ["out 1\n", "out 2\n"] rfl

/-- C1 (code bug): the result dictionary built by `_submit_feedback` — and
likewise the fallback dictionary returned by `run` when the window is closed
without submitting — carries the key "logs", not the field "command_logs"
declared by the `FeedbackResult` TypedDict, because the constructor call
passes the keyword `logs=` and a TypedDict performs no runtime validation. -/
theorem submit_result_key_mismatch :
    resultKeys (current_feedback_result submittedState) =
      ["logs", "interactive_feedback", "images", "text_files"]
  ∧ (submit_feedback submittedState).feedback_result =
      some (current_feedback_result submittedState)
  ∧ resultKeys (run_return sampleUIState) =
      ["logs", "interactive_feedback", "images", "text_files"]
  ∧ feedbackResult_declared_fields =
      ["command_logs", "interactive_feedback", "images", "text_files"]
  ∧ "command_logs" ∉ resultKeys (current_feedback_result submittedState) := by
  refine ⟨rfl, rfl, rfl, rfl, ?_⟩
  decide

/-- C6: the close event stores the window geometry and window state under the
"MainWindow_General" settings group; a newly constructed dialog restores a
stored geometry (and a stored window state) when present, and only when no
geometry is stored does it fall back to the default 500x600 size centred on
the primary screen. -/
theorem geometry_persistence (st : Settings) (screen : Screen) (w0 : Window)
    (s : UIState) :
    (∀ g, settingsValue st "MainWindow_General" "geometry" = some (QVariant.geom g) →
        (initWindowLayout st screen w0).geometry = g)
  ∧ (∀ n, settingsValue st "MainWindow_General" "windowState" = some (QVariant.wstate n) →
        (initWindowLayout st screen w0).dockState = n)
  ∧ (settingsValue st "MainWindow_General" "geometry" = none →
        (initWindowLayout st screen w0).geometry =
          { x := Int.fdiv (screen.width - 500) 2,
            y := Int.fdiv (screen.height - 600) 2,
            width := 500, height := 600 })
  ∧ settingsValue (closeEvent s).1.settings "MainWindow_General" "geometry" =
      some (QVariant.geom s.window.geometry)
  ∧ settingsValue (closeEvent s).1.settings "MainWindow_General" "windowState" =
      some (QVariant.wstate s.window.dockState) := by
  refine ⟨?_, ?_, ?_, ?_, ?_⟩
  · intro g hg
    simp only [initWindowLayout, hg]
    cases hw : settingsValue st "MainWindow_General" "windowState" with
    | none => rfl
    | some v => cases v <;> rfl
  · intro n hn
    simp only [initWindowLayout, hn]
  · intro hg
    simp only [initWindowLayout, hg]
    cases hw : settingsValue st "MainWindow_General" "windowState" with
    | none => rfl
    | some v => cases v <;> rfl
  · cases hp : s.process <;>
      simp [closeEvent, settingsSet, settingsValue, saveGeometry, saveState, hp]
  · cases hp : s.process <;>
      simp [closeEvent, settingsSet, settingsValue, saveGeometry, saveState, hp]

/-- Witness for C6: a stored geometry is restored, and with an empty settings
store the dialog falls back to 500x600 centred on a 1920x1080 screen. -/
theorem geometry_persistence_witness :
    (initWindowLayout storedSettings sampleScreen sampleWindow).geometry =
      { x := 1, y := 2, width := 640, height := 480 }
  ∧ (initWindowLayout [] sampleScreen sampleWindow).geometry =
      { x := Int.fdiv (sampleScreen.width - 500) 2,
        y := Int.fdiv (sampleScreen.height - 600) 2,
        width := 500, height := 600 } :=
  ⟨(geometry_persistence storedSettings sampleScreen sampleWindow sampleUIState).1
      { x := 1, y := 2, width := 640, height := 480 } rfl,
   (geometry_persistence [] sampleScreen sampleWindow sampleUIState).2.2.1 rfl⟩

/-- C7 counterexample: with `output_file` the empty string — a given string
argument — and a produced (non-empty) result, `feedback_ui` returns the
result to its caller and performs no file write, because the Python
truthiness test `if output_file and result:` treats "" as absent. -/
theorem feedback_ui_empty_output_file :
    feedback_ui (some "") sampleResult = (some sampleResult, []) := rfl

/-- C7 (amended): `feedback_ui` returns the collected result whenever
`output_file` is `None` (and also when it is the empty string); when
`output_file` is a non-empty string and a non-empty result was produced, it
instead creates the parent directory (or "."), serializes the result as JSON
to that file, and returns `None`. -/
theorem feedback_ui_output_behavior (result : PyDict) (f : String)
    (hf : f ≠ "") (hr : result.isEmpty = false) :
    feedback_ui none result = (some result, [])
  ∧ feedback_ui (some f) result =
      (none, [FsAction.makedirs (if dirname f = "" then "." else dirname f),
              FsAction.writeJson f result]) := by
  refine ⟨rfl, ?_⟩
  simp [feedback_ui, hf, hr]

/-- Witness for C7's amended theorem at a concrete path and result. -/
theorem feedback_ui_output_behavior_witness :
    feedback_ui none sampleResult = (some sampleResult, [])
  ∧ feedback_ui (some "out/result.json") sampleResult =
      (none, [FsAction.makedirs
                (if dirname "out/result.json" = "" then "." else dirname "out/result.json"),
              FsAction.writeJson "out/result.json" sampleResult]) :=
  feedback_ui_output_behavior sampleResult "out/result.json" (by decide) rfl

/-- C8: the attachment handlers preserve the invariants that at most five
images and at most five text files are attached.  An image paste, image drop,
or text-file drop attempted when the corresponding list already holds five
entries leaves the attachment state unchanged and reports the corresponding
limit error instead of appending; and every handler keeps both lists at five
entries or fewer. -/
theorem attachment_limits (s : AttachState) (b1 : String) (f1 : ImgFormat)
    (p2 : String) (n2 : Nat) (mime : Option String) (b2 : String) (f2 : ImgFormat)
    (p3 : String) (n3 : Nat) (a3 e3 c3 : String) :
    (s.images.length = 5 →
        handle_image_paste s b1 f1 = (s, some "max_images_reached")
      ∧ handle_image_file s p2 n2 mime b2 f2 = (s, some "max_images_reached"))
  ∧ (s.text_files.length = 5 →
        handle_text_file s p3 n3 a3 e3 c3 = (s, some "max_text_files_reached"))
  ∧ (s.images.length ≤ 5 → s.text_files.length ≤ 5 →
        (handle_image_paste s b1 f1).1.images.length ≤ 5
      ∧ (handle_image_paste s b1 f1).1.text_files.length ≤ 5
      ∧ (handle_image_file s p2 n2 mime b2 f2).1.images.length ≤ 5
      ∧ (handle_image_file s p2 n2 mime b2 f2).1.text_files.length ≤ 5
      ∧ (handle_text_file s p3 n3 a3 e3 c3).1.images.length ≤ 5
      ∧ (handle_text_file s p3 n3 a3 e3 c3).1.text_files.length ≤ 5) := by
  refine ⟨?_, ?_, ?_⟩
  · intro h
    constructor
    · simp [handle_image_paste, h]
    · simp [handle_image_file, h]
  · intro h
    simp [handle_text_file, h]
  · intro hi ht
    refine ⟨?_, ?_, ?_, ?_, ?_, ?_⟩
    · by_cases h1 : s.images.length ≥ 5
      · simp [handle_image_paste, h1]
        omega
      · simp [handle_image_paste, h1]
        omega
    · by_cases h1 : s.images.length ≥ 5 <;> simp [handle_image_paste, h1] <;> omega
    · by_cases h1 : s.images.length ≥ 5
      · simp [handle_image_file, h1]
        omega
      · by_cases h2 : n2 > 10 * 1024 * 1024
        · simp [handle_image_file, h1, h2]
          omega
        · cases mime with
          | none =>
            simp [handle_image_file, h1, h2]
            omega
          | some mstr =>
            by_cases h3 : String.startsWith mstr "image/"
            · simp [handle_image_file, h1, h2, h3]
              omega
            · simp [handle_image_file, h1, h2, h3]
              omega
    · by_cases h1 : s.images.length ≥ 5
      · simp [handle_image_file, h1]
        omega
      · by_cases h2 : n2 > 10 * 1024 * 1024
        · simp [handle_image_file, h1, h2]
          omega
        · cases mime with
          | none =>
            simp [handle_image_file, h1, h2]
            omega
          | some mstr =>
            by_cases h3 : String.startsWith mstr "image/"
            · simp [handle_image_file, h1, h2, h3]
              omega
            · simp [handle_image_file, h1, h2, h3]
              omega
    · by_cases h1 : s.text_files.length ≥ 5
      · simp [handle_text_file, h1]
        omega
      · by_cases h2 : n3 > 5 * 1024 * 1024 <;> simp [handle_text_file, h1, h2] <;> omega
    · by_cases h1 : s.text_files.length ≥ 5
      · simp [handle_text_file, h1]
        omega
      · by_cases h2 : n3 > 5 * 1024 * 1024 <;> simp [handle_text_file, h1, h2] <;> omega

/-- Witness for C8 at a full attachment state: all three handlers refuse and
leave the state unchanged, and the invariant bound holds afterwards. -/
theorem attachment_limits_witness :
    (handle_image_paste fullAttach "QUJD" ImgFormat.png =
        (fullAttach, some "max_images_reached")
   ∧ handle_image_file fullAttach "img.png" 10 (some "image/png") "QUJD" ImgFormat.png =
        (fullAttach, some "max_images_reached"))
  ∧ handle_text_file fullAttach "note.md" 10 "/p/note.md" "utf-8" "hello" =
      (fullAttach, some "max_text_files_reached")
  ∧ (handle_text_file fullAttach "note.md" 10 "/p/note.md" "utf-8" "hello").1.text_files.length ≤ 5 :=
  ⟨(attachment_limits fullAttach "QUJD" ImgFormat.png "img.png" 10 (some "image/png")
      "QUJD" ImgFormat.png "note.md" 10 "/p/note.md" "utf-8" "hello").1 rfl,
   (attachment_limits fullAttach "QUJD" ImgFormat.png "img.png" 10 (some "image/png")
      "QUJD" ImgFormat.png "note.md" 10 "/p/note.md" "utf-8" "hello").2.1 rfl,
   ((attachment_limits fullAttach "QUJD" ImgFormat.png "img.png" 10 (some "image/png")
      "QUJD" ImgFormat.png "note.md" 10 "/p/note.md" "utf-8" "hello").2.2
      (by decide) (by decide)).2.2.2.2.2⟩
